import Mathlib

/-!
# Verification of the `clock::v2` module of the atsamd HAL (thumbv6m)

This file gives a shallow embedding, in Lean, of the clock-tree management
layer found under `hal/src/thumbv6m/clock/v2/` and proves (or refutes)
the specified properties of that layer.

Machine integers (`u8`, `u16`, `u32`) are modelled as `Nat`, with an
explicit `% 2 ^ 32` at the operations where the Rust `u32` arithmetic can
wrap (release-profile semantics). `Hertz` is the HAL's newtype around a
`u32` count of Hz.

Type-level constructions of the Rust source (the `Enabled<T, N>` wrapper
with its `typenum` counter, the type-level identity enums) are reflected
value-level: a type-level counter `N` becomes a `Nat` field, a type-level
identity enum becomes an ordinary inductive.
-/

namespace AtsamdClock

/-- `Hertz` frequency newtype from `crate::time` (a `u32` count of Hz). -/
structure Hertz where
  val : Nat
deriving DecidableEq

/-- Modelled from the spec: the `Enabled<T, N>` wrapper of an enabled clock
(`typelevel.rs` is not part of the sources at hand). It pairs the wrapped
clock with its type-level usage counter `N`, reflected here as a `Nat`
field; `inc`/`dec` are pure bookkeeping on the counter. -/
structure Enabled (T : Type) where
  item : T
  counter : Nat
deriving DecidableEq

/-- Modelled from the spec: `Increment` on an `Enabled` counter,
pure bookkeeping. -/
def Enabled.inc {T : Type} (e : Enabled T) : Enabled T :=
  { e with counter := e.counter + 1 }

/-- Modelled from the spec: `Decrement` on an `Enabled` counter,
pure bookkeeping. -/
def Enabled.dec {T : Type} (e : Enabled T) : Enabled T :=
  { e with counter := e.counter - 1 }

/-! ## DPLL (`dpll.rs`) -/

/-- `DynDpllSourceId`: value-level identity of the DPLL reference clock. -/
inductive DynDpllSourceId where
  | pclk
  | xosc
  | xosc32k
deriving DecidableEq

/-- `DpllSourceId::predivider`: actual divider from the raw predivider.
`1` for the `Pclk` and `Xosc32k` sources; `2 * (1 + raw_prediv)` for the
crystal (`Xosc`) source. -/
def predivider (source : DynDpllSourceId) (rawPrediv : Nat) : Nat :=
  match source with
  | .pclk => 1
  | .xosc => 2 * (1 + rawPrediv)
  | .xosc32k => 1

/-- The `Dpll<I>` configuration record. The type parameter `I` is
reflected by the `source` field; `src_freq` is a `u32` Hz count,
`mult` a `u16`, `frac` a `u8`, `raw_prediv` a `u16`. -/
structure Dpll where
  srcFreq : Nat
  mult : Nat
  frac : Nat
  lockBypass : Bool
  wakeUpFast : Bool
  onDemand : Bool
  source : DynDpllSourceId
  rawPrediv : Nat
deriving DecidableEq

/-- `Dpll::freq`:
`Hertz(self.src_freq.0 / I::predivider(self.raw_prediv)
       * (self.mult as u32 + self.frac as u32 / 32))`.
All arithmetic is `u32`: division truncates and the multiplication wraps
modulo `2 ^ 32`. -/
def Dpll.freq (d : Dpll) : Hertz :=
  ⟨d.srcFreq / predivider d.source d.rawPrediv * (d.mult + d.frac / 32) % 2 ^ 32⟩

/-- The DPLL output-frequency formula as the spec words it:
`f_out = effective_input * (m + k/32)` with `effective_input = f_in / d`,
exact rational arithmetic. Stated only to be compared against the
source-derived `Dpll.freq`. -/
def Dpll.freqSpec (d : Dpll) : ℚ :=
  (d.srcFreq : ℚ) / (predivider d.source d.rawPrediv : ℚ)
    * ((d.mult : ℚ) + (d.frac : ℚ) / 32)

/-- The SYSCTRL registers touched by the DPLL token
(`DPLLCTRLA`, `DPLLCTRLB`, `DPLLRATIO`), by fields. -/
structure DpllRegs where
  ctrlaEnable : Bool
  ctrlaOnDemand : Bool
  ctrlbRefclk : DynDpllSourceId
  ctrlbDiv : Nat
  ctrlbLbypass : Bool
  ctrlbWuf : Bool
  ratioLdr : Nat
  ratioLdrfrac : Nat
deriving DecidableEq

/-- `DpllToken::set_loop_div`: writes `LDR := (int - 1) & 0xFFF` and
`LDRFRAC := frac & 0xF`. The subtraction is `u16` arithmetic, so it wraps
modulo `2 ^ 16` when `int = 0`. -/
def dpllSetLoopDiv (int frac : Nat) (r : DpllRegs) : DpllRegs :=
  { r with
    ratioLdr := (int + 2 ^ 16 - 1) % 2 ^ 16 &&& 0xFFF
    ratioLdrfrac := frac &&& 0xF }

/-- `DpllToken::set_source_clock`: writes the `REFCLK` field. -/
def dpllSetSourceClock (source : DynDpllSourceId) (r : DpllRegs) : DpllRegs :=
  { r with ctrlbRefclk := source }

/-- `DpllToken::set_source_div`: writes `DIV := div & ((1 << 10) - 1)`. -/
def dpllSetSourceDiv (div : Nat) (r : DpllRegs) : DpllRegs :=
  { r with ctrlbDiv := div &&& (1 <<< 10 - 1) }

/-- `DpllToken::set_lock_bypass`: writes the `LBYPASS` bit. -/
def dpllSetLockBypass (bypass : Bool) (r : DpllRegs) : DpllRegs :=
  { r with ctrlbLbypass := bypass }

/-- `DpllToken::set_wake_up_fast`: writes the `WUF` bit. -/
def dpllSetWakeUpFast (wuf : Bool) (r : DpllRegs) : DpllRegs :=
  { r with ctrlbWuf := wuf }

/-- `DpllToken::set_on_demand`: writes the `ONDEMAND` bit. -/
def dpllSetOnDemand (onDemand : Bool) (r : DpllRegs) : DpllRegs :=
  { r with ctrlaOnDemand := onDemand }

/-- `DpllToken::enable`: sets the `ENABLE` bit. -/
def dpllRegEnable (r : DpllRegs) : DpllRegs :=
  { r with ctrlaEnable := true }

/-- `DpllToken::disable`: clears the `ENABLE` bit. -/
def dpllRegDisable (r : DpllRegs) : DpllRegs :=
  { r with ctrlaEnable := false }

/-- `Dpll::force_enable`: performs the register writes in source order
(source select, source divider when `Xosc`-driven, loop divider, lock
bypass, wake-up-fast, on-demand, enable bit) and wraps the unchanged
configuration in `Enabled` at counter `0`. -/
def Dpll.forceEnable (d : Dpll) (r : DpllRegs) : Enabled Dpll × DpllRegs :=
  let r := dpllSetSourceClock d.source r
  let r := match d.source with
    | .xosc => dpllSetSourceDiv d.rawPrediv r
    | _ => r
  let r := dpllSetLoopDiv d.mult d.frac r
  let r := dpllSetLockBypass d.lockBypass r
  let r := dpllSetWakeUpFast d.wakeUpFast r
  let r := dpllSetOnDemand d.onDemand r
  let r := dpllRegEnable r
  (⟨d, 0⟩, r)

/-- `Dpll::enable`: validates the predivider, the effective input
frequency, and the output frequency, then either forcibly enables or
returns `Err(self)` with no register write. -/
def Dpll.enable (d : Dpll) (r : DpllRegs) :
    Except Dpll (Enabled Dpll) × DpllRegs :=
  let prediv := predivider d.source d.rawPrediv
  let inputFrequency := d.srcFreq / prediv
  let outputFrequency := d.freq.val
  if 1 ≤ prediv ∧ prediv ≤ 2048
      ∧ 32000 ≤ inputFrequency ∧ inputFrequency ≤ 2000000
      ∧ 48000000 ≤ outputFrequency ∧ outputFrequency ≤ 96000000 then
    let (e, r) := d.forceEnable r
    (.ok e, r)
  else
    (.error d, r)

/-- `EnabledDpll::disable` (only offered at counter `U0`): clears the
enable bit and returns the inner configuration unchanged. -/
def Dpll.disable (e : Enabled Dpll) (r : DpllRegs) : Dpll × DpllRegs :=
  (e.item, dpllRegDisable r)

/-! ## Osc8m (`osc8m.rs`) -/

/-- The `Prescaler` setting of the internal 8 MHz oscillator. -/
inductive Prescaler where
  | prescaler1
  | prescaler2
  | prescaler4
  | prescaler8
deriving DecidableEq

/-- `From<Prescaler> for u8`: the `PRESC` field encoding. -/
def Prescaler.toU8 (p : Prescaler) : Nat :=
  match p with
  | .prescaler1 => 0x0
  | .prescaler2 => 0x1
  | .prescaler4 => 0x2
  | .prescaler8 => 0x3

/-- The divisor named by each `Prescaler` variant. -/
def Prescaler.divisor (p : Prescaler) : Nat :=
  match p with
  | .prescaler1 => 1
  | .prescaler2 => 2
  | .prescaler4 => 4
  | .prescaler8 => 8

/-- The `Osc8m` configuration record. -/
structure Osc8m where
  runStandby : Bool
  onDemandMode : Bool
  prescaler : Prescaler
deriving DecidableEq

/-- `Osc8m::freq`: the frequency the HAL reports for each prescaler
setting, transcribed literally from the `match` in the source. -/
def Osc8m.freq (o : Osc8m) : Hertz :=
  match o.prescaler with
  | .prescaler1 => ⟨8000⟩
  | .prescaler2 => ⟨4000⟩
  | .prescaler4 => ⟨2000⟩
  | .prescaler8 => ⟨1000⟩

/-- `Osc8m::new`: default configuration taken from a token. -/
def Osc8m.new : Osc8m :=
  { runStandby := false, onDemandMode := true, prescaler := .prescaler1 }

/-- The SYSCTRL `OSC8M` register, by fields. -/
structure Osc8mRegs where
  calib : Nat
  frange : Nat
  presc : Nat
  ondemand : Bool
  runstdby : Bool
  enable : Bool
deriving DecidableEq

/-- `Osc8m::enable`: writes on-demand, run-standby and prescaler fields,
sets the enable bit, and wraps the unchanged configuration in `Enabled`
at counter `0`. -/
def Osc8m.enable (o : Osc8m) (r : Osc8mRegs) : Enabled Osc8m × Osc8mRegs :=
  let r := { r with ondemand := o.onDemandMode }
  let r := { r with runstdby := o.runStandby }
  let r := { r with presc := o.prescaler.toU8 }
  let r := { r with enable := true }
  (⟨o, 0⟩, r)

/-- `EnabledOsc8m::<N>::disable` — note the impl is generic over any
counter `N`: clears the enable bit and returns the inner configuration. -/
def Osc8m.disable (e : Enabled Osc8m) (r : Osc8mRegs) : Osc8m × Osc8mRegs :=
  (e.item, { r with enable := false })

/-! ## Osc32k (`osc32k.rs`) -/

/-- The `Startup` delay setting of the internal 32 kHz oscillator. -/
inductive Startup32k where
  | cycle3 | cycle4 | cycle6 | cycle10
  | cycle18 | cycle34 | cycle66 | cycle130
deriving DecidableEq

/-- The `Osc32k` configuration record. -/
structure Osc32k where
  runStandby : Bool
  onDemandMode : Bool
  startUp : Startup32k
deriving DecidableEq

/-- The SYSCTRL `OSC32K` register, by fields. -/
structure Osc32kRegs where
  startup : Startup32k
  calib : Nat
  ondemand : Bool
  runstdby : Bool
  en32k : Bool
  enable : Bool
  wrtlock : Bool
deriving DecidableEq

/-- `Osc32k::enable`: writes on-demand, run-standby, startup, the
`EN32K` bit and the enable bit, wrapping the unchanged configuration in
`Enabled` at counter `0`. -/
def Osc32k.enable (o : Osc32k) (r : Osc32kRegs) : Enabled Osc32k × Osc32kRegs :=
  let r := { r with ondemand := o.onDemandMode }
  let r := { r with runstdby := o.runStandby }
  let r := { r with startup := o.startUp }
  let r := { r with en32k := true }
  let r := { r with enable := true }
  (⟨o, 0⟩, r)

/-- `EnabledOsc32k::<N>::disable` — note the impl is generic over any
counter `N`: clears the enable and `EN32K` bits and returns the inner
configuration. -/
def Osc32k.disable (e : Enabled Osc32k) (r : Osc32kRegs) : Osc32k × Osc32kRegs :=
  let r := { r with enable := false }
  let r := { r with en32k := false }
  (e.item, r)

/-- `Source for EnabledOsc32k<N>`: always 32768 Hz. -/
def Osc32k.sourceFreq (_ : Enabled Osc32k) : Hertz := ⟨32768⟩

/-- `Source for EnabledOsc8m<N>`: delegates to `Osc8m::freq`. -/
def Osc8m.sourceFreq (e : Enabled Osc8m) : Hertz := e.item.freq

/-- The reset-state `Clocks::osc8m` of `reset.rs`: a freshly constructed
`Osc8m` wrapped in `Enabled` at counter `U1` (incremented once because
the default `Gclk0` is driven by it). -/
def porOsc8m : Enabled Osc8m := ⟨Osc8m.new, 1⟩

/-! ## Xosc (`xosc.rs`) -/

/-- The `Gain` setting of the external oscillator. -/
inductive Gain where
  | zero | twoMHz | fourMHz | eightMHz | sixteenMHz | thirtyTwoMHz
deriving DecidableEq

/-- `From<Gain> for GAIN_A`: the `GAIN` field encoding. -/
def Gain.toField (g : Gain) : Nat :=
  match g with
  | .zero => 0
  | .twoMHz => 0
  | .fourMHz => 1
  | .eightMHz => 2
  | .sixteenMHz => 3
  | .thirtyTwoMHz => 4

/-- The `Startup` delay setting of the external oscillator
(16 variants, encoded `0x0`..`0xF` in source order). -/
inductive StartupXosc where
  | cycle1 | cycle2 | cycle4 | cycle8
  | cycle16 | cycle32 | cycle64 | cycle128
  | cycle256 | cycle512 | cycle1024 | cycle2048
  | cycle4096 | cycle8192 | cycle16384 | cycle32768
deriving DecidableEq

/-- The `Mode` of the external oscillator, value-level: `ClockMode`
carries nothing; `CrystalMode` carries the gain and the amplitude loop
control flag (its GPIO `XOut` pin does not bear on the clock logic and is
omitted). -/
inductive XoscMode where
  | clockMode
  | crystalMode (gain : Gain) (amplitudeLoopControl : Bool)
deriving DecidableEq

/-- `Mode::XTALEN` for each mode. -/
def XoscMode.xtalen (m : XoscMode) : Bool :=
  match m with
  | .clockMode => false
  | .crystalMode _ _ => true

/-- `Mode::gain` for each mode (`ClockMode` reports `Gain::Zero`). -/
def XoscMode.gain (m : XoscMode) : Gain :=
  match m with
  | .clockMode => .zero
  | .crystalMode g _ => g

/-- `Mode::amplitude_loop_control` for each mode. -/
def XoscMode.amplitudeLoopControl (m : XoscMode) : Bool :=
  match m with
  | .clockMode => false
  | .crystalMode _ a => a

/-- The `Xosc<M>` configuration record (the `XIn` GPIO pin is omitted as
it does not bear on the clock logic). -/
structure Xosc where
  mode : XoscMode
  srcFreq : Hertz
  startUpCycles : StartupXosc
  onDemand : Bool
  runStandby : Bool
deriving DecidableEq

/-- `Xosc::freq`: the stored source frequency. -/
def Xosc.freq (x : Xosc) : Hertz := x.srcFreq

/-- The SYSCTRL `XOSC` register, by fields. -/
structure XoscRegs where
  startup : StartupXosc
  ondemand : Bool
  runstdby : Bool
  xtalen : Bool
  enable : Bool
  gain : Nat
  ampgc : Bool
deriving DecidableEq

/-- `XoscToken::reset`: restores the `XOSC` register reset value
(`0x0080`: only `ONDEMAND` set). -/
def xoscRegsReset : XoscRegs :=
  { startup := .cycle1, ondemand := true, runstdby := false,
    xtalen := false, enable := false, gain := 0, ampgc := false }

/-- `Xosc::enable`: resets the register, then writes source mode,
startup, on-demand, run-standby, amplitude loop control, gain, and the
enable bit, wrapping the unchanged configuration in `Enabled` at
counter `0`. -/
def Xosc.enable (x : Xosc) (_ : XoscRegs) : Enabled Xosc × XoscRegs :=
  let r := xoscRegsReset
  let r := { r with xtalen := x.mode.xtalen }
  let r := { r with startup := x.startUpCycles }
  let r := { r with ondemand := x.onDemand }
  let r := { r with runstdby := x.runStandby }
  let r := { r with ampgc := x.mode.amplitudeLoopControl }
  let r := { r with gain := x.mode.gain.toField }
  let r := { r with enable := true }
  (⟨x, 0⟩, r)

/-- `EnabledXosc::disable` (only offered at counter `U0`): clears the
enable bit and returns the inner configuration unchanged. -/
def Xosc.disable (e : Enabled Xosc) (r : XoscRegs) : Xosc × XoscRegs :=
  (e.item, { r with enable := false })

/-! ## OscUlp32k (`osculp32k.rs`) -/

/-- The SYSCTRL `OSCULP32K` register, by fields. -/
structure OscUlpRegs where
  calib : Nat
  wrtlock : Bool
deriving DecidableEq

/-- A configuration call available on the enabled ultra-low-power base
oscillator: `set_calibration` or `write_lock`. -/
inductive OscUlpOp where
  | setCalibration (calib : Nat)
  | writeLock
deriving DecidableEq

/-- Effect of one base-oscillator configuration call on the register. -/
def applyOscUlpOp (op : OscUlpOp) (r : OscUlpRegs) : OscUlpRegs :=
  match op with
  | .setCalibration c => { r with calib := c }
  | .writeLock => { r with wrtlock := true }

/-- Effect of a sequence of base-oscillator configuration calls. -/
def applyOscUlpOps (ops : List OscUlpOp) (r : OscUlpRegs) : OscUlpRegs :=
  ops.foldl (fun s op => applyOscUlpOp op s) r

/-- The `OscUlp32k` output (its token carries no data). -/
structure OscUlp32k where
  token : Unit
deriving DecidableEq

/-- The `OscUlp1k` output (its token carries no data). -/
structure OscUlp1k where
  token : Unit
deriving DecidableEq

/-- `Source for EnabledOscUlp32k<N>`: always 32768 Hz, for any counter,
independent of the register state. -/
def OscUlp32k.sourceFreq (_ : Enabled OscUlp32k) (_ : OscUlpRegs) : Hertz :=
  ⟨32768⟩

/-- `Source for EnabledOscUlp1k<N>`: always 1024 Hz, for any counter,
independent of the register state. -/
def OscUlp1k.sourceFreq (_ : Enabled OscUlp1k) (_ : OscUlpRegs) : Hertz :=
  ⟨1024⟩

/-! ## Which `disable` impls demand a zero counter

Each enabled clock type offers `disable` on an `impl` block; whether the
block is generic over the counter `N` or pinned to `U0` (the default type
argument) is transcribed here, per clock type. -/

/-- The clock types of the tree that carry an `Enabled` counter and offer
a `disable` operation. -/
inductive ClockKind where
  | dpll
  | xosc
  | osc8m
  | osc32k
deriving DecidableEq

/-- At which counter values the source offers `disable`, transcribed from
the `impl` headers: `EnabledDpll<I>` and `EnabledXosc<M>` pin the counter
to the default `U0`, while `EnabledOsc8m<N>` and `EnabledOsc32k<N>` are
generic over any `N: Counter`. -/
def disableOfferedAt (k : ClockKind) (n : Nat) : Bool :=
  match k with
  | .dpll => n == 0
  | .xosc => n == 0
  | .osc8m => true
  | .osc32k => true

/-! ## APB bus clocks (`apb.rs`) -/

/-- Which of the three APB `MASK` registers a clock's bit lives in. -/
inductive ApbRegSel where
  | regA
  | regB
  | regC
deriving DecidableEq

/-- `DynApbId`: value-level identity of every APB clock (the
feature-gated `Sercom4/5` and `Tc6/7` variants included). -/
inductive DynApbId where
  | pac0 | pm | sysCtrl | gclk | wdt | rtc | eic
  | pac1 | dsu | nvmCtrl | port | dmac | usb
  | pac2 | evSys | sercom0 | sercom1 | sercom2 | sercom3
  | sercom4 | sercom5 | tcc0 | tcc1 | tcc2
  | tc3 | tc4 | tc5 | tc6 | tc7
  | adc | ac | dac | ptc | i2s
deriving DecidableEq

/-- The register/bit table from the `define_dyn_apb_id_masks!` invocation:
each APB identity names one `MASK` register and one bit position in it. -/
def apbRegBit (id : DynApbId) : ApbRegSel × Nat :=
  match id with
  | .pac0 => (.regA, 0)
  | .pm => (.regA, 1)
  | .sysCtrl => (.regA, 2)
  | .gclk => (.regA, 3)
  | .wdt => (.regA, 4)
  | .rtc => (.regA, 5)
  | .eic => (.regA, 6)
  | .pac1 => (.regB, 0)
  | .dsu => (.regB, 1)
  | .nvmCtrl => (.regB, 2)
  | .port => (.regB, 3)
  | .dmac => (.regB, 4)
  | .usb => (.regB, 5)
  | .pac2 => (.regC, 0)
  | .evSys => (.regC, 1)
  | .sercom0 => (.regC, 2)
  | .sercom1 => (.regC, 3)
  | .sercom2 => (.regC, 4)
  | .sercom3 => (.regC, 5)
  | .sercom4 => (.regC, 6)
  | .sercom5 => (.regC, 7)
  | .tcc0 => (.regC, 8)
  | .tcc1 => (.regC, 9)
  | .tcc2 => (.regC, 10)
  | .tc3 => (.regC, 11)
  | .tc4 => (.regC, 12)
  | .tc5 => (.regC, 13)
  | .tc6 => (.regC, 14)
  | .tc7 => (.regC, 15)
  | .adc => (.regC, 16)
  | .ac => (.regC, 17)
  | .dac => (.regC, 18)
  | .ptc => (.regC, 19)
  | .i2s => (.regC, 20)

/-- The single-bit mask of an APB identity (`1 << $BIT`, a `u32`). -/
def apbMask (id : DynApbId) : Nat := 1 <<< (apbRegBit id).2

/-- The PM `APBAMASK`/`APBBMASK`/`APBCMASK` registers, as `u32` values. -/
structure ApbRegs where
  amask : Nat
  bmask : Nat
  cmask : Nat
deriving DecidableEq

/-- Read one of the three mask registers. -/
def ApbRegs.get (r : ApbRegs) (s : ApbRegSel) : Nat :=
  match s with
  | .regA => r.amask
  | .regB => r.bmask
  | .regC => r.cmask

/-- `Apb::enable` via `Apb::enable_mask`: a read-modify-write that ORs
the identity's single-bit mask into the corresponding register. -/
def Apb.enable (id : DynApbId) (r : ApbRegs) : ApbRegs :=
  match (apbRegBit id).1 with
  | .regA => { r with amask := r.amask ||| apbMask id }
  | .regB => { r with bmask := r.bmask ||| apbMask id }
  | .regC => { r with cmask := r.cmask ||| apbMask id }

/-- `Apb::disable` via `Apb::disable_mask`: a read-modify-write that ANDs
the corresponding register with the `u32` complement of the identity's
single-bit mask. -/
def Apb.disable (id : DynApbId) (r : ApbRegs) : ApbRegs :=
  match (apbRegBit id).1 with
  | .regA => { r with amask := r.amask &&& ((2 ^ 32 - 1) ^^^ apbMask id) }
  | .regB => { r with bmask := r.bmask &&& ((2 ^ 32 - 1) ^^^ apbMask id) }
  | .regC => { r with cmask := r.cmask &&& ((2 ^ 32 - 1) ^^^ apbMask id) }

/-! ## Peripheral channel clocks (`pclk.rs`)

The GCLK `CLKCTRL` register holds, per channel, a source-selector `GEN`
field and a `CLKEN` bit. `PclkToken::set_source` and
`PclkToken::enable`/`disable` are each one read-modify-write of
`CLKCTRL`; the writes a call performs are additionally recorded in an
explicit trace so that transaction counts are provable. -/

/-- Per-channel `CLKCTRL` state: the `GEN` source selector and the
`CLKEN` bit. -/
structure PclkChan where
  gen : Nat
  clken : Bool
deriving DecidableEq

/-- One read-modify-write transaction on `CLKCTRL` (tagged with the
channel id written into the `ID` field). -/
inductive PclkWrite where
  | sourceSelect (id gen : Nat)
  | channelEnable (id : Nat)
  | channelDisable (id : Nat)
deriving DecidableEq

/-- `PclkToken::set_source`: one read-modify-write setting `GEN`. -/
def pclkSetSource (pid g : Nat) (s : PclkChan) : PclkChan × PclkWrite :=
  ({ s with gen := g }, .sourceSelect pid g)

/-- `PclkToken::enable`: one read-modify-write setting `CLKEN`. -/
def pclkRegEnable (pid : Nat) (s : PclkChan) : PclkChan × PclkWrite :=
  ({ s with clken := true }, .channelEnable pid)

/-- `PclkToken::disable`: one read-modify-write clearing `CLKEN`. -/
def pclkRegDisable (pid : Nat) (s : PclkChan) : PclkChan × PclkWrite :=
  ({ s with clken := false }, .channelDisable pid)

/-- The `Pclk` record: it stores the frequency read from its source when
it was enabled. -/
structure PclkState where
  freq : Hertz
deriving DecidableEq

/-- `Pclk::enable`: reads the source frequency, performs
`token.set_source` then `token.enable` (two successive `CLKCTRL`
read-modify-writes), and increments the source counter. Returns the
`Pclk`, the new source counter, the final channel state, and the write
trace. -/
def Pclk.enable (pid gen : Nat) (srcFreq : Hertz) (srcCounter : Nat)
    (chan : PclkChan) : PclkState × Nat × PclkChan × List PclkWrite :=
  let freq := srcFreq
  let (chan1, w1) := pclkSetSource pid gen chan
  let (chan2, w2) := pclkRegEnable pid chan1
  (⟨freq⟩, srcCounter + 1, chan2, [w1, w2])

/-- `Pclk::disable`: performs `token.disable` and decrements the source
counter. -/
def Pclk.disable (pid : Nat) (srcCounter : Nat) (chan : PclkChan) :
    Nat × PclkChan × List PclkWrite :=
  let (chan1, w1) := pclkRegDisable pid chan
  (srcCounter - 1, chan1, [w1])

/-! ## Concrete fixtures used by closed theorems -/

/-- A concrete DPLL register state (the `DPLLCTRLA` reset value has only
`ONDEMAND` set). -/
def dpllRegs0 : DpllRegs :=
  { ctrlaEnable := false, ctrlaOnDemand := true, ctrlbRefclk := .xosc32k,
    ctrlbDiv := 0, ctrlbLbypass := false, ctrlbWuf := false,
    ratioLdr := 0, ratioLdrfrac := 0 }

/-- A `Pclk`-driven DPLL configuration with a 2.5 MHz reference and
multiplier 48: inside every window the spec states, yet rejected by the
code. -/
def dpllInput2500k : Dpll :=
  { srcFreq := 2500000, mult := 24, frac := 0, lockBypass := false,
    wakeUpFast := false, onDemand := true, source := .pclk, rawPrediv := 1 }

/-- The worked example of `Dpll::set_loop_div`'s own documentation:
32 kHz reference, multiplier 3000, fractional 24, nominally 96.024 MHz. -/
def dpllFracExample : Dpll :=
  { srcFreq := 32000, mult := 3000, frac := 24, lockBypass := false,
    wakeUpFast := false, onDemand := true, source := .xosc32k, rawPrediv := 1 }

/-- A `Pclk`-driven DPLL configuration with a 2 MHz reference and
multiplier 48 (96 MHz output): passes every check of `Dpll::enable`. -/
def dpllValid96M : Dpll :=
  { srcFreq := 2000000, mult := 48, frac := 0, lockBypass := false,
    wakeUpFast := false, onDemand := true, source := .pclk, rawPrediv := 1 }

/-- A DPLL configuration with multiplier 0 (used to witness C10). -/
def dpllMult0 : Dpll :=
  { srcFreq := 2000000, mult := 0, frac := 255, lockBypass := false,
    wakeUpFast := false, onDemand := true, source := .pclk, rawPrediv := 1 }

/-- The validation windows of `Dpll::enable` exactly as the spec words
them: predivider in `[1, 2048]` (exactly 1 for non-crystal sources),
effective input in `[32 kHz, 3.2 MHz]`, output in `[48 MHz, 96 MHz]`,
with the frequencies read off the spec's exact formula. -/
def dpllEnableSpecOk (d : Dpll) : Prop :=
  (1 ≤ predivider d.source d.rawPrediv ∧ predivider d.source d.rawPrediv ≤ 2048)
  ∧ (d.source ≠ .xosc → predivider d.source d.rawPrediv = 1)
  ∧ (32000 ≤ (d.srcFreq : ℚ) / (predivider d.source d.rawPrediv : ℚ)
      ∧ (d.srcFreq : ℚ) / (predivider d.source d.rawPrediv : ℚ) ≤ 3200000)
  ∧ (48000000 ≤ d.freqSpec ∧ d.freqSpec ≤ 96000000)

/-- A concrete `Osc8m` register state. -/
def osc8mRegs0 : Osc8mRegs :=
  { calib := 0x707, frange := 2, presc := 0, ondemand := true,
    runstdby := false, enable := true }

/-- A concrete `CLKCTRL` channel state: disabled, sourced from GCLK0. -/
def pclkChan0 : PclkChan := { gen := 0, clken := false }

/-- A concrete external-oscillator configuration (8 MHz crystal). -/
def xoscCrystal8M : Xosc :=
  { mode := .crystalMode .eightMHz true, srcFreq := ⟨8000000⟩,
    startUpCycles := .cycle1, onDemand := true, runStandby := false }

/-- Concrete APB mask register contents used to witness the frame
property. -/
def apbRegsW : ApbRegs :=
  { amask := 0xAAAA5555, bmask := 0x12345678, cmask := 0x00FF00FF }

/-! ## Helper lemmas on single-bit read-modify-writes -/

/-- ORing a single-bit mask into a word leaves every other bit
unchanged. -/
theorem testBit_or_shiftLeft_of_ne (r b i : Nat) (h : i ≠ b) :
    (r ||| 1 <<< b).testBit i = r.testBit i := by
  simp [Nat.testBit_or, Nat.one_shiftLeft, Nat.testBit_two_pow]
  omega

/-- ANDing with the 32-bit complement of a single-bit mask leaves every
other bit of the 32-bit word unchanged. -/
theorem testBit_and_not_shiftLeft_of_ne (r b i : Nat) (h32 : i < 32)
    (h : i ≠ b) :
    (r &&& ((2 ^ 32 - 1) ^^^ 1 <<< b)).testBit i = r.testBit i := by
  rw [Nat.testBit_and, Nat.testBit_xor, Nat.one_shiftLeft,
    Nat.testBit_two_pow, Nat.testBit_two_pow_sub_one]
  have h1 : decide (i < 32) = true := by simp [h32]
  cases hb : decide (b = i) with
  | true => exact absurd (of_decide_eq_true hb).symm h
  | false => simp [h1, hb]

/-! ## The claims -/

/-- Claim C1: the claim, which holds of the DPLL and the external
oscillator, fails for `Osc8m` and `Osc32k`: their `disable` impls are
generic over any counter `N`, so an `EnabledOsc8m`/`EnabledOsc32k` with
outstanding counted dependents can still be disabled. At counter `1` the
operation is offered and executes, clearing the enable bit. -/
theorem c1_osc8m_osc32k_disable_at_any_counter :
    disableOfferedAt ClockKind.osc8m 1 = true
  ∧ disableOfferedAt ClockKind.osc32k 1 = true
  ∧ disableOfferedAt ClockKind.dpll 1 = false
  ∧ disableOfferedAt ClockKind.xosc 1 = false
  ∧ Osc8m.disable ⟨Osc8m.new, 1⟩ osc8mRegs0
      = (Osc8m.new, { osc8mRegs0 with enable := false }) := by
  refine ⟨rfl, rfl, rfl, rfl, rfl⟩

/-- Claim C2, counterexample: `dpllInput2500k` satisfies every window the
claim states (predivider 1, effective input 2.5 MHz which is within
`[32 kHz, 3.2 MHz]`, output 60 MHz), yet `Dpll::enable` rejects it,
because the code's input window ends at 2 MHz. -/
theorem c2_spec_window_config_rejected :
    dpllEnableSpecOk dpllInput2500k
  ∧ (Dpll.enable dpllInput2500k dpllRegs0).1 = Except.error dpllInput2500k := by
  constructor
  · refine ⟨⟨by norm_num [predivider, dpllInput2500k], by norm_num [predivider, dpllInput2500k]⟩, ?_, ?_, ?_⟩
    · intro _; norm_num [predivider, dpllInput2500k]
    · constructor <;> norm_num [predivider, dpllInput2500k]
    · constructor <;> norm_num [Dpll.freqSpec, predivider, dpllInput2500k]
  · rfl

/-- Claim C2, amended: `Dpll::enable` returns `Ok` exactly when the
predivider is in `[1, 2048]`, the effective input frequency is in
`[32 kHz, 2 MHz]`, and the output frequency reported by `freq()` is in
`[48 MHz, 96 MHz]`. -/
theorem c2_enable_ok_iff_windows (d : Dpll) (r : DpllRegs) :
    (Dpll.enable d r).1 = Except.ok ⟨d, 0⟩ ↔
      (1 ≤ predivider d.source d.rawPrediv
        ∧ predivider d.source d.rawPrediv ≤ 2048
        ∧ 32000 ≤ d.srcFreq / predivider d.source d.rawPrediv
        ∧ d.srcFreq / predivider d.source d.rawPrediv ≤ 2000000
        ∧ 48000000 ≤ d.freq.val ∧ d.freq.val ≤ 96000000) := by
  simp only [Dpll.enable]
  split
  next h => simpa [Dpll.forceEnable] using h
  next h => simpa using h

/-- Claim C3: the code's own documented example (32 kHz reference,
multiplier 3000, fractional 24) nominally yields 96.024 MHz per the
spec's formula, but `Dpll::freq` computes `frac / 32` in integer
arithmetic, truncating the fractional contribution to zero and reporting
96.000 MHz. -/
theorem c3_freq_drops_fractional_part :
    Dpll.freq dpllFracExample = ⟨96000000⟩
  ∧ Dpll.freqSpec dpllFracExample = 96024000
  ∧ (96000000 : ℚ) ≠ 96024000 := by
  refine ⟨rfl, ?_, by norm_num⟩
  norm_num [Dpll.freqSpec, predivider, dpllFracExample]

/-- Claim C4: when validation fails, `Dpll::enable` returns the original
configuration bit-for-bit (the very value `self`) and the register state
is untouched: zero register writes. -/
theorem c4_enable_err_no_mutation (d : Dpll) (r : DpllRegs)
    (h : ¬(1 ≤ predivider d.source d.rawPrediv
        ∧ predivider d.source d.rawPrediv ≤ 2048
        ∧ 32000 ≤ d.srcFreq / predivider d.source d.rawPrediv
        ∧ d.srcFreq / predivider d.source d.rawPrediv ≤ 2000000
        ∧ 48000000 ≤ d.freq.val ∧ d.freq.val ≤ 96000000)) :
    Dpll.enable d r = (Except.error d, r) := by
  simp only [Dpll.enable]
  rw [if_neg h]

/-- Witness for C4 at a concrete rejected configuration (the 2.5 MHz
input one). -/
theorem c4_enable_err_no_mutation_witness :
    Dpll.enable dpllInput2500k dpllRegs0
      = (Except.error dpllInput2500k, dpllRegs0) :=
  c4_enable_err_no_mutation dpllInput2500k dpllRegs0 (by decide)

/-- Claim C5: for every APB identity and every prior register contents,
`Apb::enable` ORs in the identity's single-bit mask and `Apb::disable`
ANDs with its complement, in the identity's own mask register; the other
two mask registers are untouched, and every bit of the targeted 32-bit
register other than the identity's bit is bit-for-bit unchanged. -/
theorem c5_apb_enable_disable_frame (id : DynApbId) (r : ApbRegs) :
    ((Apb.enable id r).get (apbRegBit id).1
        = r.get (apbRegBit id).1 ||| 1 <<< (apbRegBit id).2)
  ∧ ((Apb.disable id r).get (apbRegBit id).1
        = r.get (apbRegBit id).1 &&& ((2 ^ 32 - 1) ^^^ 1 <<< (apbRegBit id).2))
  ∧ (∀ s, s ≠ (apbRegBit id).1 →
        (Apb.enable id r).get s = r.get s
      ∧ (Apb.disable id r).get s = r.get s)
  ∧ (∀ i, i < 32 → i ≠ (apbRegBit id).2 →
        ((Apb.enable id r).get (apbRegBit id).1).testBit i
            = (r.get (apbRegBit id).1).testBit i
      ∧ ((Apb.disable id r).get (apbRegBit id).1).testBit i
            = (r.get (apbRegBit id).1).testBit i) := by
  have hsel : (apbRegBit id).1 = .regA ∨ (apbRegBit id).1 = .regB
      ∨ (apbRegBit id).1 = .regC := by
    cases h : (apbRegBit id).1 <;> simp
  have frame : ∀ s₁ s₂ : ApbRegSel, s₂ ≠ s₁ →
      (match s₁ with
        | .regA => { r with amask := r.amask ||| apbMask id }
        | .regB => { r with bmask := r.bmask ||| apbMask id }
        | .regC => { r with cmask := r.cmask ||| apbMask id } : ApbRegs).get s₂
        = r.get s₂ := by
    intro s₁ s₂ hne
    cases s₁ <;> cases s₂ <;> simp_all [ApbRegs.get]
  rcases hsel with h | h | h <;>
  · refine ⟨?_, ?_, ?_, ?_⟩
    · simp [Apb.enable, h, ApbRegs.get, apbMask]
    · simp [Apb.disable, h, ApbRegs.get, apbMask]
    · intro s hs
      constructor <;> cases hss : s <;> rw [hss] at hs <;>
        simp_all [Apb.enable, Apb.disable, ApbRegs.get, apbMask]
    · intro i h32 hi
      constructor
      · simp only [Apb.enable, h, ApbRegs.get, apbMask]
        exact testBit_or_shiftLeft_of_ne _ _ _ hi
      · simp only [Apb.disable, h, ApbRegs.get, apbMask]
        exact testBit_and_not_shiftLeft_of_ne _ _ _ h32 hi

/-- Witness for C5: the USB clock (bit 5 of `APBBMASK`) at a concrete
register state, checking the targeted-register update and one untouched
bit. -/
theorem c5_apb_enable_disable_frame_witness :
    ((Apb.enable DynApbId.usb apbRegsW).get ApbRegSel.regB
        = apbRegsW.get ApbRegSel.regB ||| 1 <<< 5)
  ∧ ((Apb.disable DynApbId.usb apbRegsW).get ApbRegSel.regA
        = apbRegsW.get ApbRegSel.regA)
  ∧ (((Apb.disable DynApbId.usb apbRegsW).get ApbRegSel.regB).testBit 3
        = (apbRegsW.get ApbRegSel.regB).testBit 3) := by
  obtain ⟨h1, _, h3, h4⟩ := c5_apb_enable_disable_frame DynApbId.usb apbRegsW
  exact ⟨h1, (h3 ApbRegSel.regA (by decide)).2, (h4 3 (by decide) (by decide)).2⟩

/-- Claim C6, counterexample: `Pclk::enable` issues two `CLKCTRL`
read-modify-write transactions, not one, and after the first the new
source is selected while the channel is still disabled: the intermediate
state the claim rules out is observable. -/
theorem c6_pclk_enable_two_transactions :
    (Pclk.enable 7 3 ⟨48000000⟩ 0 pclkChan0).2.2.2.length = 2
  ∧ ¬((Pclk.enable 7 3 ⟨48000000⟩ 0 pclkChan0).2.2.2.length = 1)
  ∧ (pclkSetSource 7 3 pclkChan0).1 = { gen := 3, clken := false } := by
  refine ⟨rfl, by decide, rfl⟩

/-- Claim C6, amended: `Pclk::enable` performs exactly two consecutive
`CLKCTRL` read-modify-writes, first the source selector then the
channel's enable bit, records the frequency read from the source at that
moment, and increments the source's usage counter. -/
theorem c6_pclk_enable_behaviour (pid gen : Nat) (f : Hertz) (n : Nat)
    (chan : PclkChan) :
    Pclk.enable pid gen f n chan
      = (⟨f⟩, n + 1, { gen := gen, clken := true },
          [PclkWrite.sourceSelect pid gen, PclkWrite.channelEnable pid]) :=
  rfl

/-- Claim C7: a handle's `enable` followed immediately by `disable`
hands back a configuration record identical to the one before `enable`:
for the DPLL (whenever `enable` succeeded), the external oscillator and
the internal 8 MHz oscillator. -/
theorem c7_enable_disable_round_trip :
    (∀ (d : Dpll) (r r' : DpllRegs) (e : Enabled Dpll),
        (Dpll.enable d r).1 = Except.ok e → (Dpll.disable e r').1 = d)
  ∧ (∀ (x : Xosc) (r : XoscRegs),
        (Xosc.disable (Xosc.enable x r).1 (Xosc.enable x r).2).1 = x)
  ∧ (∀ (o : Osc8m) (r : Osc8mRegs),
        (Osc8m.disable (Osc8m.enable o r).1 (Osc8m.enable o r).2).1 = o) := by
  refine ⟨?_, fun x r => rfl, fun o r => rfl⟩
  intro d r r' e h
  simp only [Dpll.enable] at h
  split at h
  next =>
    simp only [Dpll.forceEnable] at h
    obtain rfl : (⟨d, 0⟩ : Enabled Dpll) = e := by
      simpa using h
    rfl
  next => simp at h

/-- Witness for C7 at a concrete valid DPLL configuration (2 MHz
reference, multiplier 48, accepted at 96 MHz). -/
theorem c7_enable_disable_round_trip_witness :
    (Dpll.disable ⟨dpllValid96M, 0⟩ dpllRegs0).1 = dpllValid96M
  ∧ (Xosc.disable (Xosc.enable xoscCrystal8M xoscRegsReset).1
        (Xosc.enable xoscCrystal8M xoscRegsReset).2).1 = xoscCrystal8M := by
  refine ⟨?_, c7_enable_disable_round_trip.2.1 xoscCrystal8M xoscRegsReset⟩
  exact c7_enable_disable_round_trip.1 dpllValid96M dpllRegs0 dpllRegs0
    ⟨dpllValid96M, 0⟩ (by rfl)

/-- Claim C8: the enabled ultra-low-power oscillator outputs report
exactly 32768 Hz (32 kHz tap) and 1024 Hz (1 kHz tap), for every usage
counter and after any sequence of configuration calls (calibration,
write-lock) on the base oscillator. -/
theorem c8_osculp_freqs_fixed (n m : Nat) (ops : List OscUlpOp)
    (r : OscUlpRegs) (t32 : OscUlp32k) (t1 : OscUlp1k) :
    OscUlp32k.sourceFreq ⟨t32, n⟩ (applyOscUlpOps ops r) = ⟨32768⟩
  ∧ OscUlp1k.sourceFreq ⟨t1, m⟩ (applyOscUlpOps ops r) = ⟨1024⟩ :=
  ⟨rfl, rfl⟩

/-- Claim C9: `Osc8m::freq` reports 8000, 4000, 2000 and 1000 Hz for the
four prescaler divisors, each exactly one thousand times smaller than
the divided-down 8 MHz hardware output, and the reset-state `Osc8m`
source (prescaler 1, counter 1) reports 8000 Hz. -/
theorem c9_osc8m_freq_kilohertz_scale :
    Osc8m.freq { Osc8m.new with prescaler := .prescaler1 } = ⟨8000⟩
  ∧ Osc8m.freq { Osc8m.new with prescaler := .prescaler2 } = ⟨4000⟩
  ∧ Osc8m.freq { Osc8m.new with prescaler := .prescaler4 } = ⟨2000⟩
  ∧ Osc8m.freq { Osc8m.new with prescaler := .prescaler8 } = ⟨1000⟩
  ∧ (∀ o : Osc8m, o.freq.val * 1000 * o.prescaler.divisor = 8000000)
  ∧ Osc8m.sourceFreq porOsc8m = ⟨8000⟩ := by
  refine ⟨rfl, rfl, rfl, rfl, ?_, rfl⟩
  intro o
  cases h : o.prescaler <;> simp [Osc8m.freq, Prescaler.divisor, h]

/-- Claim C10: with integer multiplier 0 the output window can never be
met, so `Dpll::enable` always returns `Err` and the `int - 1` inside
`set_loop_div` is never reached with `int = 0` through the safe path. -/
theorem c10_mult_zero_always_rejected (d : Dpll) (r : DpllRegs)
    (hf : d.frac < 256) (hm : d.mult = 0) :
    (Dpll.enable d r).1 = Except.error d := by
  simp only [Dpll.enable]
  rw [if_neg]
  rintro ⟨-, -, -, h4, h5, -⟩
  rw [Dpll.freq] at h5
  simp only at h5
  have hq : d.mult + d.frac / 32 ≤ 7 := by omega
  have hle : d.srcFreq / predivider d.source d.rawPrediv
      * (d.mult + d.frac / 32) ≤ 2000000 * 7 :=
    Nat.mul_le_mul h4 hq
  have hmod : d.srcFreq / predivider d.source d.rawPrediv
      * (d.mult + d.frac / 32) % 2 ^ 32
      = d.srcFreq / predivider d.source d.rawPrediv
        * (d.mult + d.frac / 32) :=
    Nat.mod_eq_of_lt (by omega)
  rw [hmod] at h5
  omega

/-- Witness for C10 at a concrete multiplier-0 configuration. -/
theorem c10_mult_zero_always_rejected_witness :
    dpllMult0.frac < 256 ∧ dpllMult0.mult = 0
  ∧ (Dpll.enable dpllMult0 dpllRegs0).1 = Except.error dpllMult0 :=
  ⟨by decide, by decide,
    c10_mult_zero_always_rejected dpllMult0 dpllRegs0 (by decide) (by decide)⟩

end AtsamdClock
